import Mathlib

/-!
Verification of the response-normalization (parser) core of a leetcode CLI.

The parsers of src/cache/parser.rs are shallowly embedded below: serde_json
values become the inductive `Json`; every Rust function returning Option
becomes a Lean function returning Option; functions that can abort the
process (a failing assert_eq or an unwrap) return an `Outcome`, whose
`aborted` constructor marks a process abort.  The record types of
src/cache/models.rs are not part of the sources, so they and their serde
decoders are modelled from the specification (each such definition carries a
doc comment starting with "Modelled from the spec:").

Machine floats (f32) are modelled exactly: an IEEE binary32 value is either
non-finite or a dyadic rational m * 2^e, stored with m odd (or m = 0, e = 0)
so that equality of values is structural.  Rounding is round-to-nearest,
ties to even, computed with exact integer arithmetic.  Known deliberate
simplifications, none observable by any claim proved here: serde's
number-to-f64 conversion is treated as exact (it rounds only for integers
beyond 2^53), so the f64-then-f32 double rounding of the source collapses
into a single rounding to f32.
-/

/-- Fuel-driven floor of log2 (natLog2F f n = floor (log2 n) whenever f >= n >= 1). -/
def natLog2F : Nat → Nat → Nat
  | 0, _ => 0
  | f + 1, n => if n ≤ 1 then 0 else natLog2F f (n / 2) + 1

/-- Floor of the base-2 logarithm of a positive natural number. -/
def natLog2 (n : Nat) : Nat := natLog2F n n

/-- Decide whether a * 2^s >= d, for a natural shift s that may be negative. -/
def dyGe (a d : Nat) (s : Int) : Bool :=
  if 0 ≤ s then d ≤ a * 2 ^ s.toNat else d * 2 ^ (-s).toNat ≤ a

/-- Exact model of an IEEE binary32 (f32) value: a finite value m * 2^e with the
significand m kept odd (or m = 0 and e = 0) so that each float has one
representation, or one of the three non-finite classes. -/
inductive F32 where
  | finite (m : Int) (e : Int)
  | inf
  | neginf
  | nan
deriving DecidableEq

/-- Strip factors of two from the significand to reach the canonical form. -/
def canonF32 : Nat → Nat → Int → Int → F32
  | 0, m, e, sgn => .finite (sgn * m) e
  | f + 1, m, e, sgn =>
    if m = 0 then .finite 0 0
    else if m % 2 = 0 then canonF32 f (m / 2) (e + 1) sgn
    else .finite (sgn * m) e

/-- Round the exact rational (n / d) * 2^e to the nearest IEEE binary32 value,
ties to even, overflowing to the infinities.  Callers keep d nonzero. -/
def roundF32R (n d e : Int) : F32 :=
  if n = 0 then .finite 0 0
  else
    let sgn : Int := if (n < 0) = (d < 0) then 1 else -1
    let a := n.natAbs
    let dd := d.natAbs
    let f0 : Int := (natLog2 a : Int) - (natLog2 dd : Int) + e
    let f : Int := if dyGe a dd (e - f0) then f0 else f0 - 1
    let ee : Int := max (f - 23) (-149)
    let s : Int := e - ee
    let n2 : Nat := a * 2 ^ (max s 0).toNat
    let d2 : Nat := dd * 2 ^ (max (-s) 0).toNat
    let m0 := n2 / d2
    let r := n2 % d2
    let m : Nat :=
      if 2 * r < d2 then m0
      else if d2 < 2 * r then m0 + 1
      else if m0 % 2 = 0 then m0 else m0 + 1
    if 128 - ee ≤ 24 then
      if 2 ^ (128 - ee).toNat ≤ m then (if sgn < 0 then .neginf else .inf)
      else canonF32 64 m ee sgn
    else canonF32 64 m ee sgn

/-- Value of an integer as an f32 (the Rust cast of a small literal). -/
def f32OfInt (i : Int) : F32 := roundF32R i 1 0

/-- Exact (unnormalized) rational carried by a JSON number, standing in for the
f64 the source reads with as_f64. -/
structure QRat where
  num : Int
  den : Int
deriving DecidableEq

/-- Conversion of a JSON-number rational to f32 (the source's as-f32 cast). -/
def f32OfQ (q : QRat) : F32 := roundF32R q.num q.den 0

/-- IEEE division on the f32 model (division by zero gives an infinity or NaN). -/
def F32.div : F32 → F32 → F32
  | .nan, _ => .nan
  | _, .nan => .nan
  | .inf, .inf => .nan
  | .inf, .neginf => .nan
  | .neginf, .inf => .nan
  | .neginf, .neginf => .nan
  | .inf, .finite m _ => if m < 0 then .neginf else .inf
  | .neginf, .finite m _ => if m < 0 then .inf else .neginf
  | .finite _ _, .inf => .finite 0 0
  | .finite _ _, .neginf => .finite 0 0
  | .finite m1 e1, .finite m2 e2 =>
    if m2 = 0 then (if m1 = 0 then .nan else if m1 < 0 then .neginf else .inf)
    else roundF32R m1 m2 (e1 - e2)

/-- IEEE multiplication on the f32 model. -/
def F32.mul : F32 → F32 → F32
  | .nan, _ => .nan
  | _, .nan => .nan
  | .inf, .inf => .inf
  | .inf, .neginf => .neginf
  | .neginf, .inf => .neginf
  | .neginf, .neginf => .inf
  | .inf, .finite m _ => if m = 0 then .nan else if m < 0 then .neginf else .inf
  | .finite m _, .inf => if m = 0 then .nan else if m < 0 then .neginf else .inf
  | .neginf, .finite m _ => if m = 0 then .nan else if m < 0 then .inf else .neginf
  | .finite m _, .neginf => if m = 0 then .nan else if m < 0 then .inf else .neginf
  | .finite m1 e1, .finite m2 e2 => roundF32R (m1 * m2) 1 (e1 + e2)

/-- Predicate for the non-finite f32 classes (NaN and the infinities). -/
def F32.nonFinite : F32 → Bool
  | .finite _ _ => false
  | _ => true

/-- Wrapping conversion from i64 to i32 (the Rust as-i32 cast). -/
def wrapI32 (i : Int) : Int := (i + 2 ^ 31) % 2 ^ 32 - 2 ^ 31

/-- Decimal-digit test on characters. -/
def isDigitC (c : Char) : Bool := 48 ≤ c.toNat && c.toNat ≤ 57

/-- Value of a list of decimal digits. -/
def digitsVal (ds : List Char) : Nat :=
  ds.foldl (fun acc c => acc * 10 + (c.toNat - 48)) 0

/-- Model of Rust str::parse::<i32>: optional sign, one or more digits, range
checked against i32. -/
def parseI32 (s : String) : Option Int :=
  let (sgn, rest) : Int × List Char :=
    match s.data with
    | '+' :: r => (1, r)
    | '-' :: r => (-1, r)
    | r => (1, r)
  if rest.isEmpty then none
  else if !rest.all isDigitC then none
  else
    let v : Int := sgn * (digitsVal rest : Int)
    if -(2 ^ 31) ≤ v ∧ v < 2 ^ 31 then some v else none

/-- Model of Rust str::parse::<f32> on the decimal grammar: optional sign,
digits with an optional fractional part, correctly rounded to binary32.
The exponent, inf and NaN spellings of the full Rust grammar are not
modelled; no claim exercises them. -/
def parseF32 (s : String) : Option F32 :=
  let (neg, rest) : Bool × List Char :=
    match s.data with
    | '+' :: r => (false, r)
    | '-' :: r => (true, r)
    | r => (false, r)
  let ip := rest.takeWhile isDigitC
  let rest2 := rest.dropWhile isDigitC
  match rest2 with
  | [] =>
    if ip.isEmpty then none
    else some (roundF32R ((if neg then -1 else 1) * (digitsVal ip : Int)) 1 0)
  | '.' :: fr =>
    if !fr.all isDigitC then none
    else if ip.isEmpty && fr.isEmpty then none
    else
      let k := fr.length
      let n : Int := (if neg then -1 else 1) * ((digitsVal ip * 10 ^ k + digitsVal fr : Nat) : Int)
      some (roundF32R n ((10 ^ k : Nat) : Int) 0)
  | _ => none

/-- Numeric payload of a JSON value: an integer literal, or a decimal literal
n / d (serde_json keeps integers and floats apart, and as_i64 succeeds only
on integer literals). -/
inductive JNum where
  | int (i : Int)
  | float (n : Int) (d : Int)
deriving DecidableEq

/-- Shallow embedding of a serde_json value tree. -/
inductive Json where
  | null
  | bool (b : Bool)
  | num (x : JNum)
  | str (s : String)
  | arr (xs : List Json)
  | obj (fields : List (String × Json))

/-- Lookup of a key in the field list of a JSON object. -/
def objGet : List (String × Json) → String → Option Json
  | [], _ => none
  | (k, x) :: rest, key => if k = key then some x else objGet rest key

/-- View of a JSON value as an object (serde as_object). -/
def Json.asObj : Json → Option (List (String × Json))
  | .obj fs => some fs
  | _ => none

/-- Key access on a JSON value (serde Value::get with a string key). -/
def Json.get (v : Json) (key : String) : Option Json :=
  v.asObj.bind (fun o => objGet o key)

/-- View as a string (serde as_str). -/
def Json.asStr : Json → Option String
  | .str s => some s
  | _ => none

/-- View as a boolean (serde as_bool). -/
def Json.asBool : Json → Option Bool
  | .bool b => some b
  | _ => none

/-- View as an array (serde as_array). -/
def Json.asArr : Json → Option (List Json)
  | .arr xs => some xs
  | _ => none

/-- View as an i64 (serde as_i64): integer literals within the i64 range. -/
def Json.asI64 : Json → Option Int
  | .num (.int i) => if -(2 ^ 63) ≤ i ∧ i < 2 ^ 63 then some i else none
  | _ => none

/-- View as an f64 (serde as_f64), modelled exactly by the underlying rational. -/
def Json.asF64 : Json → Option QRat
  | .num (.int i) => some ⟨i, 1⟩
  | .num (.float n d) => some ⟨n, d⟩
  | _ => none

/-- Test against JSON null (the source compares with Value::Null). -/
def Json.isNull : Json → Bool
  | .null => true
  | _ => false

/-- Whitespace skipping for the JSON text grammar. -/
def skipWs (cs : List Char) : List Char :=
  cs.dropWhile (fun c => c == ' ' || c == '\n' || c == '\t' || c == '\r')

/-- Fuel-driven body of a JSON string literal (after the opening quote); returns
the decoded characters and the remainder after the closing quote.  Escapes
cover the forms used by the payloads at issue; the unicode escape is not
modelled (no claim exercises it). -/
def parseStrChars : Nat → List Char → Option (List Char × List Char)
  | 0, _ => none
  | _ + 1, [] => none
  | f + 1, c :: rest =>
    if c = '"' then some ([], rest)
    else if c = '\\' then
      match rest with
      | [] => none
      | e :: rest2 =>
        let ec : Option Char :=
          if e = '"' then some '"'
          else if e = '\\' then some '\\'
          else if e = '/' then some '/'
          else if e = 'n' then some '\n'
          else if e = 't' then some '\t'
          else if e = 'r' then some '\r'
          else none
        match ec with
        | none => none
        | some c2 =>
          match parseStrChars f rest2 with
          | none => none
          | some (sacc, r) => some (c2 :: sacc, r)
    else
      match parseStrChars f rest with
      | none => none
      | some (sacc, r) => some (c :: sacc, r)

/-- Number of the JSON text grammar: optional minus, digits, optional fraction.
The exponent form is not modelled (no claim exercises it). -/
def parseNum (cs : List Char) : Option (JNum × List Char) :=
  let (neg, r1) : Bool × List Char :=
    match cs with
    | '-' :: r => (true, r)
    | r => (false, r)
  let ip := r1.takeWhile isDigitC
  let r2 := r1.dropWhile isDigitC
  if ip.isEmpty then none
  else
    match r2 with
    | '.' :: r3 =>
      let fr := r3.takeWhile isDigitC
      let r4 := r3.dropWhile isDigitC
      if fr.isEmpty then none
      else
        let k := fr.length
        some (.float ((if neg then -1 else 1) * ((digitsVal ip * 10 ^ k + digitsVal fr : Nat) : Int))
          ((10 ^ k : Nat) : Int), r4)
    | _ => some (.int ((if neg then -1 else 1) * (digitsVal ip : Int)), r2)

mutual

/-- Fuel-driven JSON value of the text grammar. -/
def parseVal : Nat → List Char → Option (Json × List Char)
  | 0, _ => none
  | f + 1, cs =>
    match skipWs cs with
    | [] => none
    | c :: rest =>
      if c = '"' then
        match parseStrChars (rest.length + 1) rest with
        | none => none
        | some (sc, r) => some (.str ⟨sc⟩, r)
      else if c = '\x7b' then
        match skipWs rest with
        | '\x7d' :: r => some (.obj [], r)
        | cs2 =>
          match parseMembers f cs2 with
          | none => none
          | some (fs, r) => some (.obj fs, r)
      else if c = '[' then
        match skipWs rest with
        | ']' :: r => some (.arr [], r)
        | cs2 =>
          match parseItems f cs2 with
          | none => none
          | some (xs, r) => some (.arr xs, r)
      else if c = 't' then
        (match rest with
         | 'r' :: 'u' :: 'e' :: r => some (.bool true, r)
         | _ => none)
      else if c = 'f' then
        (match rest with
         | 'a' :: 'l' :: 's' :: 'e' :: r => some (.bool false, r)
         | _ => none)
      else if c = 'n' then
        (match rest with
         | 'u' :: 'l' :: 'l' :: r => some (.null, r)
         | _ => none)
      else
        match parseNum (c :: rest) with
        | none => none
        | some (x, r) => some (.num x, r)

/-- Fuel-driven nonempty item list of a JSON array (up to the closing bracket). -/
def parseItems : Nat → List Char → Option (List Json × List Char)
  | 0, _ => none
  | f + 1, cs =>
    match parseVal f cs with
    | none => none
    | some (x, r) =>
      match skipWs r with
      | ',' :: r2 =>
        (match parseItems f r2 with
         | none => none
         | some (xs, r3) => some (x :: xs, r3))
      | ']' :: r2 => some ([x], r2)
      | _ => none

/-- Fuel-driven nonempty member list of a JSON object (up to the closing brace). -/
def parseMembers : Nat → List Char → Option (List (String × Json) × List Char)
  | 0, _ => none
  | f + 1, cs =>
    match skipWs cs with
    | '"' :: r =>
      (match parseStrChars (r.length + 1) r with
       | none => none
       | some (kc, r2) =>
         match skipWs r2 with
         | ':' :: r3 =>
           (match parseVal f r3 with
            | none => none
            | some (x, r4) =>
              match skipWs r4 with
              | ',' :: r5 =>
                (match parseMembers f r5 with
                 | none => none
                 | some (fs, r6) => some ((⟨kc⟩, x) :: fs, r6))
              | '\x7d' :: r5 => some ([(⟨kc⟩, x)], r5)
              | _ => none)
         | _ => none)
    | _ => none

end

/-- Parse of a complete JSON text (serde_json::from_str down to a value tree);
the fuel bound exceeds the possible nesting and item count of the input. -/
def parseJsonText (s : String) : Option Json :=
  match parseVal (s.length + 16) s.data with
  | none => none
  | some (v, r) => if (skipWs r).isEmpty then some v else none

/-- Sequence a fallible decode over a list, failing on the first failure
(the collect of Results in the source, and serde sequence decodes). -/
def traverseOption (f : α → Option β) : List α → Option (List β)
  | [] => some []
  | a :: rest =>
    match f a, traverseOption f rest with
    | some b, some bs => some (b :: bs)
    | _, _ => none

/-- Modelled from the spec: the Stats record of src/cache/models.rs (not under
src/): accepted and submitted counts in display form, their raw counts, and
the acceptance rate as formatted percentage text (the field the composite
parser reads as stats.rate). -/
structure Stats where
  total_accepted : String
  total_submission : String
  total_accepted_raw : Int
  total_submission_raw : Int
  rate : String
deriving DecidableEq

/-- Default Stats value (the Rust Default derive). -/
def Stats.default : Stats := ⟨"", "", 0, 0, ""⟩

/-- Modelled from the spec: one per-language code template of the defs list of
the Question record of src/cache/models.rs (not under src/). -/
structure CodeDef where
  value : String
  text : String
  default_code : String
deriving DecidableEq

/-- Modelled from the spec: the structured function-signature description held
by the Question record of src/cache/models.rs (not under src/); only the
signature name is needed by any claim. -/
structure Metadata where
  name : String
deriving DecidableEq

/-- Default Metadata value (the Rust Default derive). -/
def Metadata.default : Metadata := ⟨""⟩

/-- Question record of src/cache/models.rs (not under src/); fields follow the
data model of the spec: content, stats, defs, case, all_cases, metadata,
test, t_content.  The Rust field named case is spelled case_q here. -/
structure Question where
  content : String
  stats : Stats
  defs : List CodeDef
  case_q : String
  all_cases : String
  metadata : Metadata
  test : Bool
  t_content : String
deriving DecidableEq

/-- Default Question value (Question::default() in the source). -/
def Question.default : Question := ⟨"", Stats.default, [], "", "", Metadata.default, false, ""⟩

/-- Problem record of src/cache/models.rs (not under src/); fields follow the
data model of the spec. -/
structure Problem where
  category : String
  fid : Int
  id : Int
  level : Int
  locked : Bool
  name : String
  percent : F32
  slug : String
  starred : Bool
  status : String
  desc : String
deriving DecidableEq

/-- Modelled from the spec: ContestQuestionStub of src/cache/models.rs (not
under src/), a minimal per-question record decoded generically; its serde
decode requires an object carrying these fields. -/
structure ContestQuestionStub where
  id : Int
  title : String
  title_slug : String
deriving DecidableEq

/-- Contest record of src/cache/models.rs (not under src/); fields follow the
data model of the spec. -/
structure Contest where
  id : Int
  duration : Int
  start_time : Int
  title : String
  title_slug : String
  description : String
  is_virtual : Bool
  contains_premium : Bool
  registered : Bool
  questions : List ContestQuestionStub
deriving DecidableEq

/-- Modelled from the spec: serde decode of a ContestQuestionStub from a JSON
value (the from_value call of the contest parser). -/
def stubFromJson (j : Json) : Option ContestQuestionStub :=
  j.asObj.bind fun o =>
  ((objGet o "id").bind Json.asI64).bind fun i =>
  ((objGet o "title").bind Json.asStr).bind fun t =>
  ((objGet o "title_slug").bind Json.asStr).bind fun ts =>
  some ⟨i, t, ts⟩

/-- Modelled from the spec: serde decode of the Stats record from a JSON value;
field names follow the platform's stats payload. -/
def decodeStats (j : Json) : Option Stats :=
  j.asObj.bind fun o =>
  ((objGet o "totalAccepted").bind Json.asStr).bind fun ta =>
  ((objGet o "totalSubmission").bind Json.asStr).bind fun ts =>
  ((objGet o "totalAcceptedRaw").bind Json.asI64).bind fun tar =>
  ((objGet o "totalSubmissionRaw").bind Json.asI64).bind fun tsr =>
  ((objGet o "acRate").bind Json.asStr).bind fun rate =>
  some ⟨ta, ts, tar, tsr, rate⟩

/-- Decode of the embedded stats JSON text (serde_json::from_str in desc). -/
def statsFromStr (s : String) : Option Stats := (parseJsonText s).bind decodeStats

/-- Modelled from the spec: serde decode of one code template. -/
def decodeDef (j : Json) : Option CodeDef :=
  j.asObj.bind fun o =>
  ((objGet o "value").bind Json.asStr).bind fun v =>
  ((objGet o "text").bind Json.asStr).bind fun t =>
  ((objGet o "defaultCode").bind Json.asStr).bind fun dc =>
  some ⟨v, t, dc⟩

/-- Decode of the embedded codeDefinition JSON text (serde_json::from_str in desc). -/
def defsFromStr (s : String) : Option (List CodeDef) :=
  ((parseJsonText s).bind Json.asArr).bind (traverseOption decodeDef)

/-- Modelled from the spec: serde decode of the metadata record. -/
def decodeMeta (j : Json) : Option Metadata :=
  j.asObj.bind fun o =>
  ((objGet o "name").bind Json.asStr).bind fun n =>
  some ⟨n⟩

/-- Decode of the embedded metaData JSON text (serde_json::from_str in desc). -/
def metaFromStr (s : String) : Option Metadata := (parseJsonText s).bind decodeMeta

/-- Escape of one character for the modelled JSON serialization. -/
def escChars (c : Char) : List Char :=
  if c = '"' then ['\\', '"']
  else if c = '\\' then ['\\', '\\']
  else if c = '\n' then ['\\', 'n'] else [c]

/-- Quoted form of a string for the modelled JSON serialization. -/
def renderStr (s : String) : String :=
  ⟨'"' :: s.data.foldr (fun c acc => escChars c ++ acc) ['"']⟩

/-- Rendering of one code template for the modelled serialization. -/
def renderDef (d : CodeDef) : String :=
  "\x7b\"value\":" ++ renderStr d.value ++ ",\"text\":" ++ renderStr d.text ++
    ",\"defaultCode\":" ++ renderStr d.default_code ++ "\x7d"

/-- Rendering of a list of code templates. -/
def renderDefs (ds : List CodeDef) : String :=
  "[" ++ String.intercalate "," (ds.map renderDef) ++ "]"

/-- Modelled from the spec: serde_json::to_string of a Question record
(src/cache/models.rs is not under src/).  Serialization of this record
always succeeds, so the model is a total function; the produced text is
opaque to every claim. -/
def questionToString (q : Question) : String :=
  "\x7b\"content\":" ++ renderStr q.content ++
    ",\"stats\":\x7b\"totalAccepted\":" ++ renderStr q.stats.total_accepted ++
    ",\"totalSubmission\":" ++ renderStr q.stats.total_submission ++
    ",\"totalAcceptedRaw\":" ++ toString q.stats.total_accepted_raw ++
    ",\"totalSubmissionRaw\":" ++ toString q.stats.total_submission_raw ++
    ",\"acRate\":" ++ renderStr q.stats.rate ++ "\x7d" ++
    ",\"codeDefinition\":" ++ renderDefs q.defs ++
    ",\"sampleTestCase\":" ++ renderStr q.case_q ++
    ",\"exampleTestcases\":" ++ renderStr q.all_cases ++
    ",\"metaData\":\x7b\"name\":" ++ renderStr q.metadata.name ++ "\x7d" ++
    ",\"enableRunCode\":" ++ (if q.test then "true" else "false") ++
    ",\"translatedContent\":" ++ renderStr q.t_content ++ "\x7d"

/-- Result of a Rust call that can return None, return a value, or abort the
process (failed assert or unwrap). -/
inductive Outcome (α : Type) where
  | aborted
  | failed
  | ok (a : α)
deriving DecidableEq

/-- Test for the ok constructor of an Outcome. -/
def Outcome.isOk : Outcome α → Bool
  | .ok _ => true
  | _ => false

/-- Field part of the contest parser (the Contest literal of lines 15-26 of
src/cache/parser.rs, with its try operators). -/
def contestFields (o co : List (String × Json)) (questions : List ContestQuestionStub) :
    Option Contest :=
  ((objGet co "id").bind Json.asI64).bind fun cid =>
  ((objGet co "duration").bind Json.asI64).bind fun dur =>
  ((objGet co "start_time").bind Json.asI64).bind fun st =>
  ((objGet co "title").bind Json.asStr).bind fun title =>
  ((objGet co "title_slug").bind Json.asStr).bind fun slug =>
  ((objGet co "is_virtual").bind Json.asBool).bind fun isv =>
  ((objGet o "containsPremium").bind Json.asBool).bind fun cp =>
  ((objGet o "registered").bind Json.asBool).bind fun reg =>
  some ⟨wrapI32 cid, wrapI32 dur, st, title, slug, "", isv, cp, reg, questions⟩

/-- Embedding of the contest parser (src/cache/parser.rs lines 6-27).  The
questions vector is built before the remaining fields are read, and each
stub decode is unwrapped: a malformed stub aborts the process. -/
def contest (v : Json) : Outcome Contest :=
  match v.asObj with
  | none => .failed
  | some o =>
    match (objGet o "contest").bind Json.asObj with
    | none => .failed
    | some co =>
      match (objGet o "questions").bind Json.asArr with
      | none => .failed
      | some qjs =>
        match traverseOption stubFromJson qjs with
        | none => .aborted
        | some questions =>
          match contestFields o co questions with
          | none => .failed
          | some c => .ok c

/-- Loop body of the problem parser (src/cache/parser.rs lines 32-50): the
parse of one stat/status pair into a Problem. -/
def problemPair (v p : Json) : Option Problem :=
  ((p.get "stat").bind Json.asObj).bind fun stat =>
  ((objGet stat "total_acs").bind Json.asF64).bind fun aq =>
  ((objGet stat "total_submitted").bind Json.asF64).bind fun sq =>
  let total_acs := f32OfQ aq
  let total_submitted := f32OfQ sq
  ((v.get "category_slug").bind Json.asStr).bind fun category =>
  ((objGet stat "frontend_question_id").bind Json.asI64).bind fun fid =>
  ((objGet stat "question_id").bind Json.asI64).bind fun qid =>
  (((p.get "difficulty").bind Json.asObj).bind (objGet · "level")).bind fun lv =>
  lv.asI64.bind fun level =>
  ((p.get "paid_only").bind Json.asBool).bind fun locked =>
  ((objGet stat "question__title").bind Json.asStr).bind fun name =>
  ((objGet stat "question__title_slug").bind Json.asStr).bind fun slug =>
  ((p.get "is_favor").bind Json.asBool).bind fun starred =>
  (p.get "status").bind fun statusJ =>
  some ⟨category, wrapI32 fid, wrapI32 qid, wrapI32 level, locked, name,
    (total_acs.div total_submitted).mul (f32OfInt 100),
    slug, starred, (statusJ.asStr).getD "Null", ""⟩

/-- Iteration of the problem parser over the stat/status pairs, threading the
caller's vector: a malformed pair stops the iteration with an absence
signal, keeping what was already appended. -/
def problemLoop (v : Json) (ps : List Problem) : List Json → List Problem × Option Unit
  | [] => (ps, some ())
  | p :: rest =>
    match problemPair v p with
    | none => (ps, none)
    | some pr => problemLoop v (ps ++ [pr]) rest

/-- Embedding of the problem parser (src/cache/parser.rs lines 30-53).  The
Rust &mut Vec<Problem> becomes an explicit vector argument and result. -/
def problem (problems : List Problem) (v : Json) : List Problem × Option Unit :=
  match (v.get "stat_status_pairs").bind Json.asArr with
  | none => (problems, none)
  | some pairs => problemLoop v problems pairs

/-- Navigation to the data.question object of a GraphQL question-detail body
(src/cache/parser.rs lines 91-96 and 62-64). -/
def dataQuestionObj (v : Json) : Option (List (String × Json)) :=
  ((v.get "data").bind (Json.get · "question")).bind Json.asObj

/-- Field part of the desc parser (the Question literal of lines 102-118 of
src/cache/parser.rs).  The unwrap_or argument on the exampleTestcases line
is evaluated eagerly, so sampleTestCase is required on this path. -/
def descBuild (o : List (String × Json)) : Option Question :=
  (objGet o "content").bind fun contentJ =>
  ((objGet o "stats").bind Json.asStr).bind fun statsS =>
  (statsFromStr statsS).bind fun stats =>
  ((objGet o "codeDefinition").bind Json.asStr).bind fun defsS =>
  (defsFromStr defsS).bind fun defs =>
  ((objGet o "sampleTestCase").bind Json.asStr).bind fun caseS =>
  (objGet o "sampleTestCase").bind fun sdef =>
  (((objGet o "exampleTestcases").getD sdef).asStr).bind fun allS =>
  ((objGet o "metaData").bind Json.asStr).bind fun metaS =>
  (metaFromStr metaS).bind fun metadata =>
  ((objGet o "enableRunCode").bind Json.asBool).bind fun test =>
  (objGet o "translatedContent").bind fun tJ =>
  some ⟨(contentJ.asStr).getD "", stats, defs, caseS, allS, metadata, test,
    (tJ.asStr).getD ""⟩

/-- Embedding of the desc parser (src/cache/parser.rs lines 86-121).  The Rust
in-place assignment of the passed-in Question is modelled by returning the
record next to the Option<bool> outcome: None is hard failure, some false
the soft-null (content JSON null) success, some true full success. -/
def desc (q : Question) (v : Json) : Option Bool × Question :=
  match dataQuestionObj v with
  | none => (none, q)
  | some o =>
    match objGet o "content" with
    | none => (none, q)
    | some c =>
      if c.isNull then (some false, q)
      else
        match descBuild o with
        | none => (none, q)
        | some q2 => (some true, q2)

/-- Byte slice percent[..percent.len()-1] of the composite parser (line 61 of
src/cache/parser.rs): on an empty string the index underflows and on a
multibyte final character the position is no char boundary; both are
panics, hence aborts. -/
def sliceDropLastByte (s : String) : Outcome String :=
  match s.data.getLast? with
  | none => .aborted
  | some c => if 128 ≤ c.toNat then .aborted else .ok ⟨s.data.dropLast⟩

/-- Difficulty mapping of the composite parser (lines 69-74 of
src/cache/parser.rs): the first character of the difficulty text. -/
def levelOfChar (c : Char) : Int :=
  if c = 'E' then 1 else if c = 'M' then 2 else if c = 'H' then 3 else 0

/-- ASCII lowercasing (to_ascii_lowercase on the category title). -/
def toAsciiLower (s : String) : String :=
  ⟨s.data.map (fun c => if 'A' ≤ c ∧ c ≤ 'Z' then Char.ofNat (c.toNat + 32) else c)⟩

/-- Field part of the composite parser (the Problem literal of lines 65-82 of
src/cache/parser.rs, after the percent has been computed). -/
def graphqlFields (v : Json) (qn : Question) (percent : F32) :
    Option (Problem × Question) :=
  (dataQuestionObj v).bind fun o =>
  ((objGet o "categoryTitle").bind Json.asStr).bind fun category =>
  (((objGet o "questionFrontendId").bind Json.asStr).bind parseI32).bind fun fid =>
  (((objGet o "questionId").bind Json.asStr).bind parseI32).bind fun qid =>
  ((objGet o "difficulty").bind Json.asStr).bind fun dS =>
  dS.data.head?.bind fun c0 =>
  ((objGet o "title").bind Json.asStr).bind fun name =>
  ((objGet o "titleSlug").bind Json.asStr).bind fun slug =>
  ((objGet o "isFavor").bind Json.asBool).bind fun starred =>
  (objGet o "status").bind fun statusJ =>
  some (⟨toAsciiLower category, fid, qid, levelOfChar c0, false, name, percent, slug,
    starred, (statusJ.asStr).getD "Null", questionToString qn⟩, qn)

/-- Continuation of the composite parser after the asserted desc call
(src/cache/parser.rs lines 60-82): the percent is parsed out of the stats
rate text and the Problem fields are read from the same tree. -/
def graphqlAfterDesc (v : Json) (qn : Question) : Outcome (Problem × Question) :=
  match sliceDropLastByte qn.stats.rate with
  | .aborted => .aborted
  | .failed => .failed
  | .ok rs =>
    match parseF32 rs with
    | none => .failed
    | some percent =>
      match graphqlFields v qn percent with
      | none => .failed
      | some pq => .ok pq

/-- Embedding of graphql_problem_and_question (src/cache/parser.rs lines
57-83).  The assert_eq on the desc outcome aborts the process whenever desc
does not return full success (Some(true)); otherwise the filled-in Question
is carried into the remaining field reads. -/
def graphql_problem_and_question (v : Json) : Outcome (Problem × Question) :=
  if (desc Question.default v).fst = some true then
    graphqlAfterDesc v (desc Question.default v).snd
  else .aborted

/-- Embedding of the user parser (src/cache/parser.rs lines 154-166): None is
parse failure, some none the JSON-null user (not authenticated), and some
(some pair) the populated identity. -/
def user (v : Json) : Option (Option (String × Bool)) :=
  match (v.get "data").bind (Json.get · "user") with
  | none => none
  | some u =>
    if u.isNull then some none
    else
      match u.asObj with
      | none => none
      | some uo =>
        match (objGet uo "username").bind Json.asStr,
            (objGet uo "isCurrentUserPremium").bind Json.asBool with
        | some un, some prem => some (some (un, prem))
        | _, _ => none

/-- Stat/status pair list of a bulk-problem body (used to state claims). -/
def pairsOf (v : Json) : Option (List Json) :=
  (v.get "stat_status_pairs").bind Json.asArr

/-- Numeric stat field of one stat/status pair (used to state claims). -/
def statField (p : Json) (key : String) : Option QRat :=
  (((p.get "stat").bind Json.asObj).bind (objGet · key)).bind Json.asF64

/-- Difficulty level field of one stat/status pair (used to state claims). -/
def levelField (p : Json) : Option Int :=
  (((p.get "difficulty").bind Json.asObj).bind (objGet · "level")).bind Json.asI64

/-- Difficulty text of a question-detail body (used to state claims). -/
def difficultyOf (v : Json) : Option String :=
  ((dataQuestionObj v).bind (objGet · "difficulty")).bind Json.asStr

/-- Question-detail body whose content is explicitly JSON null (premium gated). -/
def nullContentInput : Json :=
  .obj [("data", .obj [("question", .obj [("content", Json.null)])])]

/-- Well-formed contest stub entry for the contest inputs. -/
def goodStub : Json :=
  .obj [("id", .num (.int 7)), ("title", .str "Q7"), ("title_slug", .str "q7")]

/-- Contest body whose questions array holds one malformed stub entry. -/
def badContestInput : Json :=
  .obj [
    ("contest", .obj [("id", .num (.int 1)), ("duration", .num (.int 5400)),
      ("start_time", .num (.int 1650000000)), ("title", .str "Weekly"),
      ("title_slug", .str "weekly"), ("is_virtual", .bool false)]),
    ("questions", .arr [.str "oops"]),
    ("containsPremium", .bool false),
    ("registered", .bool true)]

/-- Contest body identical to badContestInput except that its one stub decodes. -/
def goodContestInput : Json :=
  .obj [
    ("contest", .obj [("id", .num (.int 1)), ("duration", .num (.int 5400)),
      ("start_time", .num (.int 1650000000)), ("title", .str "Weekly"),
      ("title_slug", .str "weekly"), ("is_virtual", .bool false)]),
    ("questions", .arr [goodStub]),
    ("containsPremium", .bool false),
    ("registered", .bool true)]

/-- Bulk stat/status pair with total_acs 50, total_submitted 200, level 2 and a
JSON-null status. -/
def bulkPair1 : Json :=
  .obj [("stat", .obj [("question_id", .num (.int 11)),
          ("frontend_question_id", .num (.int 1)),
          ("question__title", .str "Two Sum"),
          ("question__title_slug", .str "two-sum"),
          ("total_acs", .num (.int 50)), ("total_submitted", .num (.int 200))]),
        ("difficulty", .obj [("level", .num (.int 2))]),
        ("paid_only", .bool false), ("is_favor", .bool false), ("status", Json.null)]

/-- Bulk stat/status pair with total_acs 1, total_submitted 2 and status text. -/
def bulkPair2 : Json :=
  .obj [("stat", .obj [("question_id", .num (.int 12)),
          ("frontend_question_id", .num (.int 2)),
          ("question__title", .str "Add"),
          ("question__title_slug", .str "add"),
          ("total_acs", .num (.int 1)), ("total_submitted", .num (.int 2))]),
        ("difficulty", .obj [("level", .num (.int 1))]),
        ("paid_only", .bool false), ("is_favor", .bool true), ("status", .str "ac")]

/-- Bulk stat/status pair with total_submitted 0. -/
def zeroPair : Json :=
  .obj [("stat", .obj [("question_id", .num (.int 13)),
          ("frontend_question_id", .num (.int 3)),
          ("question__title", .str "New"),
          ("question__title_slug", .str "new"),
          ("total_acs", .num (.int 5)), ("total_submitted", .num (.int 0))]),
        ("difficulty", .obj [("level", .num (.int 3))]),
        ("paid_only", .bool true), ("is_favor", .bool false), ("status", Json.null)]

/-- Pair identical to bulkPair1 except that the status key is absent. -/
def noStatusPair : Json :=
  .obj [("stat", .obj [("question_id", .num (.int 11)),
          ("frontend_question_id", .num (.int 1)),
          ("question__title", .str "Two Sum"),
          ("question__title_slug", .str "two-sum"),
          ("total_acs", .num (.int 50)), ("total_submitted", .num (.int 200))]),
        ("difficulty", .obj [("level", .num (.int 2))]),
        ("paid_only", .bool false), ("is_favor", .bool false)]

/-- Well-formed bulk-problem body with two pairs. -/
def bulkBody : Json :=
  .obj [("category_slug", .str "algorithms"),
        ("stat_status_pairs", .arr [bulkPair1, bulkPair2])]

/-- Bulk-problem body with a zero-submission pair. -/
def zeroBody : Json :=
  .obj [("category_slug", .str "algorithms"),
        ("stat_status_pairs", .arr [zeroPair])]

/-- Bulk-problem body whose second pair is malformed. -/
def badPairBody : Json :=
  .obj [("category_slug", .str "algorithms"),
        ("stat_status_pairs", .arr [bulkPair1, .obj []])]

/-- Bulk-problem body whose only pair misses the status key. -/
def noStatusBody : Json :=
  .obj [("category_slug", .str "algorithms"),
        ("stat_status_pairs", .arr [noStatusPair])]

/-- Problem record produced from bulkPair1 (percent exactly 25). -/
def prob1 : Problem :=
  ⟨"algorithms", 1, 11, 2, false, "Two Sum", .finite 25 0, "two-sum", false, "Null", ""⟩

/-- Problem record produced from bulkPair2 (percent exactly 50). -/
def prob2 : Problem :=
  ⟨"algorithms", 2, 12, 1, false, "Add", .finite 25 1, "add", true, "ac", ""⟩

/-- Problem record produced from zeroPair (percent positive infinity). -/
def zeroProb : Problem :=
  ⟨"algorithms", 3, 13, 3, true, "New", .inf, "new", false, "Null", ""⟩

/-- Embedded stats payload with acceptance rate text 50.0 percent. -/
def statsText : String :=
  "\x7b\"totalAccepted\":\"1K\",\"totalSubmission\":\"2K\",\"totalAcceptedRaw\":1000,\"totalSubmissionRaw\":2000,\"acRate\":\"50.0%\"\x7d"

/-- Embedded code-definition payload with one template. -/
def defsText : String :=
  "[\x7b\"value\":\"cpp\",\"text\":\"C++\",\"defaultCode\":\"int x;\"\x7d]"

/-- Embedded metadata payload. -/
def metaText : String := "\x7b\"name\":\"twoSum\"\x7d"

/-- Common fields of the GraphQL question-detail inputs below; exampleTestcases
is deliberately absent and the difficulty text is Extreme (first character
E without being the word Easy). -/
def gqlCommon : List (String × Json) :=
  [("content", .str "<p>desc</p>"),
   ("stats", .str statsText),
   ("codeDefinition", .str defsText),
   ("sampleTestCase", .str "1\n2"),
   ("metaData", .str metaText),
   ("enableRunCode", .bool true),
   ("categoryTitle", .str "Algorithms"),
   ("questionFrontendId", .str "1"),
   ("questionId", .str "11"),
   ("difficulty", .str "Extreme"),
   ("title", .str "Two Sum"),
   ("titleSlug", .str "two-sum"),
   ("isFavor", .bool false),
   ("status", Json.null)]

/-- Fully well-formed GraphQL question-detail body (translatedContent present
as JSON null). -/
def gqlFull : Json :=
  .obj [("data", .obj [("question", .obj (gqlCommon ++ [("translatedContent", Json.null)]))])]

/-- The same body with the translatedContent key absent. -/
def gqlNoTrans : Json :=
  .obj [("data", .obj [("question", .obj gqlCommon)])]

/-- Question record produced by desc from gqlFull. -/
def qFull : Question :=
  ⟨"<p>desc</p>", ⟨"1K", "2K", 1000, 2000, "50.0%"⟩, [⟨"cpp", "C++", "int x;"⟩],
    "1\n2", "1\n2", ⟨"twoSum"⟩, true, ""⟩

/-- Problem record produced by the composite parser from gqlFull. -/
def pFull : Problem :=
  ⟨"algorithms", 1, 11, 1, false, "Two Sum", .finite 25 1, "two-sum", false, "Null",
    questionToString qFull⟩

/-- Structurally malformed user body. -/
def userBad : Json := .obj [("data", .obj [])]

/-- User body with a JSON-null user (not authenticated). -/
def userNull : Json := .obj [("data", .obj [("user", Json.null)])]

/-- User body with a populated identity. -/
def userAnn : Json :=
  .obj [("data", .obj [("user", .obj [("username", .str "ann"),
    ("isCurrentUserPremium", .bool true)])])]

/-- Minimal contest body with a malformed stub entry, used as a witness input. -/
def miniContestFields : List (String × Json) :=
  [("contest", .obj []), ("questions", .arr [.str "x"])]

/-- The minimal contest body as a JSON value. -/
def miniContest : Json := .obj miniContestFields

theorem traverseOption_eq_none {f : α → Option β} :
    ∀ {l : List α}, (∃ x ∈ l, f x = none) → traverseOption f l = none := by
  intro l h
  induction l with
  | nil => simp at h
  | cons a rest ih =>
    rcases h with ⟨x, hx, hfx⟩
    rcases List.mem_cons.mp hx with h1 | h1
    · subst h1; unfold traverseOption; rw [hfx]
    · unfold traverseOption
      rw [ih ⟨x, h1, hfx⟩]
      cases f a <;> rfl

theorem traverseOption_length {f : α → Option β} :
    ∀ {l : List α} {r : List β}, traverseOption f l = some r → r.length = l.length := by
  intro l
  induction l with
  | nil => intro r h; unfold traverseOption at h; injection h with h; subst h; rfl
  | cons a rest ih =>
    intro r h
    unfold traverseOption at h
    cases hf : f a with
    | none => rw [hf] at h; exact Option.noConfusion h
    | some b =>
      rw [hf] at h
      cases ht : traverseOption f rest with
      | none => rw [ht] at h; exact Option.noConfusion h
      | some bs =>
        rw [ht] at h
        injection h with h
        subst h
        simp [ih ht]

theorem bind_some_elim {x : Option α} {f : α → Option β} {b : β} (h : x.bind f = some b) :
    ∃ a, x = some a ∧ f a = some b := by
  cases x with
  | none => exact Option.noConfusion h
  | some a => exact ⟨a, rfl, h⟩

theorem desc_success_elim (q : Question) (v : Json) (q2 : Question)
    (h : desc q v = (some true, q2)) :
    ∃ o, dataQuestionObj v = some o ∧ descBuild o = some q2 := by
  cases h1 : dataQuestionObj v with
  | none => simp [desc, h1] at h
  | some o =>
    cases h2 : objGet o "content" with
    | none => simp [desc, h1, h2] at h
    | some c =>
      cases h3 : c.isNull with
      | true => simp [desc, h1, h2, h3] at h
      | false =>
        cases h4 : descBuild o with
        | none => simp [desc, h1, h2, h3, h4] at h
        | some qq =>
          simp [desc, h1, h2, h3, h4] at h
          exact ⟨o, rfl, by rw [h4, h]⟩

theorem descBuild_fields (o : List (String × Json)) (q2 : Question)
    (h : descBuild o = some q2) :
    (∃ sj, objGet o "sampleTestCase" = some sj ∧
      ((objGet o "exampleTestcases").getD sj).asStr = some q2.all_cases) ∧
    (∃ tj, objGet o "translatedContent" = some tj ∧ q2.t_content = (tj.asStr).getD "") := by
  unfold descBuild at h
  simp only [Option.bind_eq_some] at h
  obtain ⟨cJ, hc, sS, hsS, st, hst, dS, hdS, df, hdf, cS, hcS, sj, hsj, aS, haS,
    mS, hmS, md, hmd, tb, htb, tJ, htJ, hq⟩ := h
  injection hq with hq
  subst hq
  exact ⟨⟨sj, hsj, haS⟩, tJ, htJ, rfl⟩

theorem problemPair_fields (v p : Json) (pr : Problem) (h : problemPair v p = some pr) :
    (∃ a s, statField p "total_acs" = some a ∧ statField p "total_submitted" = some s ∧
      pr.percent = ((f32OfQ a).div (f32OfQ s)).mul (f32OfInt 100)) ∧
    (∃ l, levelField p = some l ∧ pr.level = wrapI32 l) ∧
    (∃ sj, p.get "status" = some sj ∧ pr.status = (sj.asStr).getD "Null") := by
  unfold problemPair at h
  obtain ⟨stat, hstat, h⟩ := bind_some_elim h
  obtain ⟨aq, haq, h⟩ := bind_some_elim h
  obtain ⟨sq, hsq, h⟩ := bind_some_elim h
  obtain ⟨cat, hcat, h⟩ := bind_some_elim h
  obtain ⟨fid, hfid, h⟩ := bind_some_elim h
  obtain ⟨qid, hqid, h⟩ := bind_some_elim h
  obtain ⟨lv, hlv, h⟩ := bind_some_elim h
  obtain ⟨level, hlevel, h⟩ := bind_some_elim h
  obtain ⟨locked, hlocked, h⟩ := bind_some_elim h
  obtain ⟨name, hname, h⟩ := bind_some_elim h
  obtain ⟨slug, hslug, h⟩ := bind_some_elim h
  obtain ⟨starred, hstarred, h⟩ := bind_some_elim h
  obtain ⟨statusJ, hstatusJ, h⟩ := bind_some_elim h
  injection h with h
  subst h
  refine ⟨⟨aq, sq, ?_, ?_, rfl⟩, ⟨level, ?_, rfl⟩, statusJ, hstatusJ, rfl⟩
  · unfold statField
    rw [hstat]
    exact haq
  · unfold statField
    rw [hstat]
    exact hsq
  · unfold levelField
    rw [hlv]
    exact hlevel

theorem graphql_ok_elim (v : Json) (p : Problem) (q : Question)
    (h : graphql_problem_and_question v = .ok (p, q)) :
    ∃ qn pc, desc Question.default v = (some true, qn) ∧
      graphqlFields v qn pc = some (p, q) := by
  unfold graphql_problem_and_question at h
  by_cases hd : (desc Question.default v).fst = some true
  · rw [if_pos hd] at h
    unfold graphqlAfterDesc at h
    cases hs : sliceDropLastByte (desc Question.default v).snd.stats.rate with
    | aborted => rw [hs] at h; exact Outcome.noConfusion h
    | failed => rw [hs] at h; exact Outcome.noConfusion h
    | ok rs =>
      rw [hs] at h
      dsimp only [] at h
      cases hp : parseF32 rs with
      | none => rw [hp] at h; exact Outcome.noConfusion h
      | some pc =>
        rw [hp] at h
        dsimp only [] at h
        cases hg : graphqlFields v (desc Question.default v).snd pc with
        | none => rw [hg] at h; exact Outcome.noConfusion h
        | some pq =>
          rw [hg] at h
          injection h with h
          subst h
          refine ⟨(desc Question.default v).snd, pc, ?_, hg⟩
          rw [← hd]
  · rw [if_neg hd] at h
    exact Outcome.noConfusion h

theorem graphqlFields_level (v : Json) (qn : Question) (pc : F32) (p : Problem) (q : Question)
    (h : graphqlFields v qn pc = some (p, q)) :
    ∃ o dS c0 rest, dataQuestionObj v = some o ∧
      (objGet o "difficulty").bind Json.asStr = some dS ∧
      dS.data = c0 :: rest ∧ p.level = levelOfChar c0 := by
  unfold graphqlFields at h
  obtain ⟨o, ho, h⟩ := bind_some_elim h
  obtain ⟨cat, hcat, h⟩ := bind_some_elim h
  obtain ⟨fid, hfid, h⟩ := bind_some_elim h
  obtain ⟨qid, hqid, h⟩ := bind_some_elim h
  obtain ⟨dS, hdS, h⟩ := bind_some_elim h
  obtain ⟨c0, hc0, h⟩ := bind_some_elim h
  obtain ⟨name, hname, h⟩ := bind_some_elim h
  obtain ⟨slug, hslug, h⟩ := bind_some_elim h
  obtain ⟨starred, hstarred, h⟩ := bind_some_elim h
  obtain ⟨statusJ, hstatusJ, h⟩ := bind_some_elim h
  injection h with h
  have hp : p = ⟨toAsciiLower cat, fid, qid, levelOfChar c0, false, name, pc, slug,
      starred, (statusJ.asStr).getD "Null", questionToString qn⟩ :=
    (congrArg Prod.fst h).symm
  cases hd2 : dS.data with
  | nil => rw [hd2] at hc0; exact Option.noConfusion hc0
  | cons a l =>
    rw [hd2] at hc0
    injection hc0 with hc0
    subst hc0
    exact ⟨o, dS, a, l, ho, hdS, hd2, by rw [hp]⟩

theorem f32OfQ_zero (s : QRat) (h : s.num = 0) : f32OfQ s = .finite 0 0 := by
  unfold f32OfQ roundF32R
  rw [h]
  simp

theorem div_zero_mul_hundred_nonFinite (x : F32) :
    ((x.div (.finite 0 0)).mul (f32OfInt 100)).nonFinite = true := by
  have h100 : f32OfInt 100 = .finite 25 2 := by decide
  rw [h100]
  cases x with
  | finite m e =>
    by_cases hm : m = 0
    · simp [F32.div, hm, F32.mul, F32.nonFinite]
    · by_cases hm2 : m < 0
      · simp [F32.div, hm, hm2, F32.mul, F32.nonFinite]
      · simp [F32.div, hm, hm2, F32.mul, F32.nonFinite]
  | inf => simp [F32.div, F32.mul, F32.nonFinite]
  | neginf => simp [F32.div, F32.mul, F32.nonFinite]
  | nan => simp [F32.div, F32.mul, F32.nonFinite]

theorem problemLoop_ok (v : Json) :
    ∀ (pairs : List Json) (ps : List Problem) (l : List Problem),
      traverseOption (problemPair v) pairs = some l →
      problemLoop v ps pairs = (ps ++ l, some ()) := by
  intro pairs
  induction pairs with
  | nil =>
    intro ps l h
    unfold traverseOption at h
    injection h with h
    subst h
    simp [problemLoop]
  | cons p rest ih =>
    intro ps l h
    unfold traverseOption at h
    cases hp : problemPair v p with
    | none => rw [hp] at h; exact Option.noConfusion h
    | some pr =>
      rw [hp] at h
      cases ht : traverseOption (problemPair v) rest with
      | none => rw [ht] at h; exact Option.noConfusion h
      | some bs =>
        rw [ht] at h
        injection h with h
        subst h
        unfold problemLoop
        rw [hp]
        dsimp only []
        rw [ih (ps ++ [pr]) bs ht]
        simp

theorem problemLoop_bad (v : Json) (bad : Json) (hbad : problemPair v bad = none) :
    ∀ (pre : List Json) (rest : List Json) (ps : List Problem) (l : List Problem),
      traverseOption (problemPair v) pre = some l →
      problemLoop v ps (pre ++ bad :: rest) = (ps ++ l, none) := by
  intro pre
  induction pre with
  | nil =>
    intro rest ps l h
    unfold traverseOption at h
    injection h with h
    subst h
    simp [problemLoop, hbad]
  | cons p pr2 ih =>
    intro rest ps l h
    unfold traverseOption at h
    cases hp : problemPair v p with
    | none => rw [hp] at h; exact Option.noConfusion h
    | some pr =>
      rw [hp] at h
      cases ht : traverseOption (problemPair v) pr2 with
      | none => rw [ht] at h; exact Option.noConfusion h
      | some bs =>
        rw [ht] at h
        injection h with h
        subst h
        have harr : (p :: pr2) ++ bad :: rest = p :: (pr2 ++ bad :: rest) := rfl
        rw [harr]
        unfold problemLoop
        rw [hp]
        dsimp only []
        rw [ih rest (ps ++ [pr]) bs ht]
        simp

theorem wrapI32_small (l : Int) (h0 : 0 ≤ l) (h3 : l ≤ 3) : wrapI32 l = l := by
  unfold wrapI32
  omega

/-- C1: the composite parser does not return an absence signal when the
question-detail parse fails or is soft-null: the asserted desc call aborts
the process instead.  The first conjunct is the general divergence (every
non-full-success desc outcome aborts), the remaining conjuncts evaluate the
embedded code at the failing inputs: content explicitly JSON null (premium
gated, desc soft-null) and a structurally malformed body. -/
theorem c1_graphql_aborts_on_desc_failure :
    (∀ v : Json, (desc Question.default v).fst ≠ some true →
      graphql_problem_and_question v = .aborted) ∧
    desc Question.default nullContentInput = (some false, Question.default) ∧
    graphql_problem_and_question nullContentInput = .aborted ∧
    graphql_problem_and_question (.obj []) = .aborted := by
  refine ⟨fun v h => ?_, rfl, rfl, rfl⟩
  unfold graphql_problem_and_question
  rw [if_neg h]

/-- C1 witness: the general conjunct applied at the premium-gated input. -/
theorem c1_witness :
    (desc Question.default nullContentInput).fst ≠ some true ∧
    graphql_problem_and_question nullContentInput = .aborted :=
  ⟨by decide, c1_graphql_aborts_on_desc_failure.1 nullContentInput (by decide)⟩

/-- C2: a malformed stub entry in the questions array does not yield a returned
absence signal: the unwrap in the contest parser aborts the process (so no
partial Contest is produced either way, but as an abort, not a signal).
General conjunct over every input whose questions array holds a failing
stub, plus evaluation at a failing input, plus the repaired input decoding
successfully for contrast. -/
theorem c2_contest_aborts_on_bad_stub :
    (∀ (v : Json) (o co : List (String × Json)) (qjs : List Json),
      v.asObj = some o → (objGet o "contest").bind Json.asObj = some co →
      (objGet o "questions").bind Json.asArr = some qjs →
      (∃ q ∈ qjs, stubFromJson q = none) →
      contest v = .aborted) ∧
    contest badContestInput = .aborted ∧
    (contest goodContestInput).isOk = true := by
  refine ⟨fun v o co qjs h1 h2 h3 h4 => ?_, rfl, rfl⟩
  unfold contest
  rw [h1]
  dsimp only []
  rw [h2]
  dsimp only []
  rw [h3]
  dsimp only []
  rw [traverseOption_eq_none h4]

/-- C2 witness: the general conjunct applied at a minimal contest body whose
only questions entry fails to decode as a stub. -/
theorem c2_witness :
    miniContest.asObj = some miniContestFields ∧
    (objGet miniContestFields "contest").bind Json.asObj = some [] ∧
    (objGet miniContestFields "questions").bind Json.asArr = some [.str "x"] ∧
    (∃ q ∈ [Json.str "x"], stubFromJson q = none) ∧
    contest miniContest = .aborted :=
  ⟨rfl, rfl, rfl, ⟨.str "x", by simp, rfl⟩,
    c2_contest_aborts_on_bad_stub.1 miniContest miniContestFields [] [.str "x"]
      rfl rfl rfl ⟨.str "x", by simp, rfl⟩⟩

/-- C3: every parsed stat/status pair carries the percent computed in f32
arithmetic as total_acs / total_submitted * 100; a pair whose
total_submitted is 0 yields a non-finite percent preserved in the record;
and the 50/200 pair yields the exact f32 value 25 (finite 25 * 2^0). -/
theorem c3_percent_float :
    (∀ v p pr a s, problemPair v p = some pr →
      statField p "total_acs" = some a → statField p "total_submitted" = some s →
      pr.percent = ((f32OfQ a).div (f32OfQ s)).mul (f32OfInt 100)) ∧
    (∀ v p pr s, problemPair v p = some pr →
      statField p "total_submitted" = some s → s.num = 0 →
      pr.percent.nonFinite = true) ∧
    (problemPair bulkBody bulkPair1 = some prob1 ∧ prob1.percent = .finite 25 0) := by
  refine ⟨?_, ?_, rfl, rfl⟩
  · intro v p pr a s h ha hs
    obtain ⟨⟨a2, s2, ha2, hs2, hpc⟩, _, _⟩ := problemPair_fields v p pr h
    rw [ha2] at ha
    rw [hs2] at hs
    injection ha with ha
    injection hs with hs
    subst ha
    subst hs
    exact hpc
  · intro v p pr s h hs h0
    obtain ⟨⟨a2, s2, ha2, hs2, hpc⟩, _, _⟩ := problemPair_fields v p pr h
    rw [hs2] at hs
    injection hs with hs
    subst hs
    rw [hpc, f32OfQ_zero _ h0]
    exact div_zero_mul_hundred_nonFinite _

/-- C3 witness: the formula conjunct at the 50/200 pair and the non-finite
conjunct at the zero-submission pair (whose record carries percent inf). -/
theorem c3_witness :
    (problemPair bulkBody bulkPair1 = some prob1 ∧
     statField bulkPair1 "total_acs" = some ⟨50, 1⟩ ∧
     statField bulkPair1 "total_submitted" = some ⟨200, 1⟩ ∧
     prob1.percent = ((f32OfQ ⟨50, 1⟩).div (f32OfQ ⟨200, 1⟩)).mul (f32OfInt 100)) ∧
    (problemPair zeroBody zeroPair = some zeroProb ∧
     statField zeroPair "total_submitted" = some ⟨0, 1⟩ ∧
     zeroProb.percent = .inf ∧
     zeroProb.percent.nonFinite = true) :=
  ⟨⟨rfl, rfl, rfl,
      c3_percent_float.1 bulkBody bulkPair1 prob1 ⟨50, 1⟩ ⟨200, 1⟩ rfl rfl rfl⟩,
   ⟨rfl, rfl, rfl,
      c3_percent_float.2.1 zeroBody zeroPair zeroProb ⟨0, 1⟩ rfl rfl rfl⟩⟩

/-- C4: a well-formed bulk body appends exactly one Problem per stat/status
pair to the caller's vector in input order and returns success; when some
pair is malformed the parser returns absence, appends nothing further, and
everything appended from the earlier well-formed pairs remains. -/
theorem c4_problem_appends :
    (∀ (ps : List Problem) (v : Json) (pairs : List Json) (l : List Problem),
      pairsOf v = some pairs → traverseOption (problemPair v) pairs = some l →
      problem ps v = (ps ++ l, some ()) ∧ l.length = pairs.length) ∧
    (∀ (ps : List Problem) (v : Json) (pre rest : List Json) (bad : Json) (l : List Problem),
      pairsOf v = some (pre ++ bad :: rest) →
      traverseOption (problemPair v) pre = some l → problemPair v bad = none →
      problem ps v = (ps ++ l, none)) := by
  constructor
  · intro ps v pairs l h1 h2
    refine ⟨?_, traverseOption_length h2⟩
    unfold problem
    unfold pairsOf at h1
    rw [h1]
    exact problemLoop_ok v pairs ps l h2
  · intro ps v pre rest bad l h1 h2 h3
    unfold problem
    unfold pairsOf at h1
    rw [h1]
    exact problemLoop_bad v bad h3 pre rest ps l h2

/-- C4 witness: the success conjunct on the two-pair body and the failure
conjunct on the body whose second pair is malformed (the first append
survives). -/
theorem c4_witness :
    (pairsOf bulkBody = some [bulkPair1, bulkPair2] ∧
     traverseOption (problemPair bulkBody) [bulkPair1, bulkPair2] = some [prob1, prob2] ∧
     problem [] bulkBody = ([] ++ [prob1, prob2], some ())) ∧
    (pairsOf badPairBody = some ([bulkPair1] ++ Json.obj [] :: []) ∧
     traverseOption (problemPair badPairBody) [bulkPair1] = some [prob1] ∧
     problemPair badPairBody (Json.obj []) = none ∧
     problem [] badPairBody = ([] ++ [prob1], none)) :=
  ⟨⟨rfl, rfl,
      (c4_problem_appends.1 [] bulkBody [bulkPair1, bulkPair2] [prob1, prob2] rfl rfl).1⟩,
   ⟨rfl, rfl, rfl,
      c4_problem_appends.2 [] badPairBody [bulkPair1] [] (Json.obj []) [prob1] rfl rfl rfl⟩⟩

/-- C5 counterexample: the difficulty text Extreme is neither Easy, Medium nor
Hard, yet the composite parser maps it to level 1 rather than the claimed
0, because only the first character is inspected. -/
theorem c5_counterexample :
    difficultyOf gqlFull = some "Extreme" ∧
    graphql_problem_and_question gqlFull = .ok (pFull, qFull) ∧
    pFull.level = 1 := ⟨rfl, rfl, rfl⟩

/-- C5 amended: the REST parser passes levels 0-3 through unchanged, and the
composite parser maps the first character of the difficulty text (E to 1,
M to 2, H to 3, any other first character to 0) - so Easy, Medium and Hard
map as documented, but so does any other word sharing their initial, and
empty difficulty text fails the parse rather than mapping to 0. -/
theorem c5_level_mapping :
    (∀ v p pr l, problemPair v p = some pr → levelField p = some l →
      0 ≤ l → l ≤ 3 → pr.level = l) ∧
    (∀ v p q d, graphql_problem_and_question v = .ok (p, q) → difficultyOf v = some d →
      ∃ c0 rest, d.data = c0 :: rest ∧ p.level = levelOfChar c0) := by
  constructor
  · intro v p pr l h hl h0 h3
    obtain ⟨_, ⟨l2, hl2, hlev⟩, _⟩ := problemPair_fields v p pr h
    rw [hl2] at hl
    injection hl with hl
    subst hl
    rw [hlev, wrapI32_small l2 h0 h3]
  · intro v p q d h hd
    obtain ⟨qn, pc, hdesc, hg⟩ := graphql_ok_elim v p q h
    obtain ⟨o, dS, c0, rest, ho, hdS, hdata, hlev⟩ := graphqlFields_level v qn pc p q hg
    unfold difficultyOf at hd
    rw [ho] at hd
    have hd2 : (objGet o "difficulty").bind Json.asStr = some d := hd
    rw [hdS] at hd2
    injection hd2 with hd2
    subst hd2
    exact ⟨c0, rest, hdata, hlev⟩

/-- C5 witness: the REST conjunct at the level-2 pair and the composite
conjunct at the input with difficulty Extreme. -/
theorem c5_witness :
    (problemPair bulkBody bulkPair1 = some prob1 ∧ levelField bulkPair1 = some 2 ∧
     prob1.level = 2) ∧
    (graphql_problem_and_question gqlFull = .ok (pFull, qFull) ∧
     difficultyOf gqlFull = some "Extreme" ∧
     ∃ c0 rest, ("Extreme").data = c0 :: rest ∧ pFull.level = levelOfChar c0) :=
  ⟨⟨rfl, rfl,
      c5_level_mapping.1 bulkBody bulkPair1 prob1 2 rfl rfl (by decide) (by decide)⟩,
   ⟨rfl, rfl, c5_level_mapping.2 gqlFull pFull qFull "Extreme" rfl rfl⟩⟩

/-- C6: a question-detail input whose content field is present and explicitly
JSON null makes desc return the soft-null outcome some false with the
passed-in Question record exactly unchanged, distinguishable from hard
failure none and full success some true. -/
theorem c6_soft_null (q : Question) (v : Json) (o : List (String × Json))
    (h1 : dataQuestionObj v = some o) (h2 : objGet o "content" = some Json.null) :
    desc q v = (some false, q) := by
  simp [desc, h1, h2, Json.isNull]

/-- C6 witness: the premium-gated input evaluated through the theorem. -/
theorem c6_witness :
    dataQuestionObj nullContentInput = some [("content", Json.null)] ∧
    objGet [("content", Json.null)] "content" = some Json.null ∧
    desc Question.default nullContentInput = (some false, Question.default) :=
  ⟨rfl, rfl, c6_soft_null Question.default nullContentInput [("content", Json.null)] rfl rfl⟩

/-- C7: on full desc success the all_cases field is read from exampleTestcases
when that key is present and falls back to the sampleTestCase value when it
is absent; concretely, with exampleTestcases absent and sampleTestCase the
two-line text 1 2, the parsed all_cases equals that text. -/
theorem c7_all_cases_fallback :
    (∀ q v q2, desc q v = (some true, q2) →
      ∃ o sj, dataQuestionObj v = some o ∧ objGet o "sampleTestCase" = some sj ∧
        ((objGet o "exampleTestcases").getD sj).asStr = some q2.all_cases) ∧
    ((dataQuestionObj gqlFull).bind (objGet · "exampleTestcases") = none ∧
     (dataQuestionObj gqlFull).bind (objGet · "sampleTestCase") = some (.str "1\n2") ∧
     desc Question.default gqlFull = (some true, qFull) ∧
     qFull.all_cases = "1\n2") := by
  refine ⟨?_, rfl, rfl, rfl, rfl⟩
  intro q v q2 h
  obtain ⟨o, ho, hb⟩ := desc_success_elim q v q2 h
  obtain ⟨⟨sj, hsj, hall⟩, _⟩ := descBuild_fields o q2 hb
  exact ⟨o, sj, ho, hsj, hall⟩

/-- C7 witness: the fallback conjunct applied on the input without
exampleTestcases. -/
theorem c7_witness :
    desc Question.default gqlFull = (some true, qFull) ∧
    (∃ o sj, dataQuestionObj gqlFull = some o ∧ objGet o "sampleTestCase" = some sj ∧
      ((objGet o "exampleTestcases").getD sj).asStr = some qFull.all_cases) :=
  ⟨rfl, c7_all_cases_fallback.1 Question.default gqlFull qFull rfl⟩

/-- C8 counterexample: with the translatedContent key absent the otherwise
well-formed desc parse fails outright instead of defaulting (the same body
with the key present as JSON null succeeds with the empty-text default),
and a pair without the status key fails the whole pair parse (the same pair
with a JSON-null status succeeds with the Null default). -/
theorem c8_counterexample :
    desc Question.default gqlNoTrans = (none, Question.default) ∧
    desc Question.default gqlFull = (some true, qFull) ∧
    qFull.t_content = "" ∧
    problem [] noStatusBody = ([], none) ∧
    problemPair bulkBody bulkPair1 = some prob1 ∧
    prob1.status = "Null" := ⟨rfl, rfl, rfl, rfl, rfl, rfl⟩

/-- C8 amended: the documented defaults apply to present-but-non-string values,
not to absent keys: full desc success requires the translatedContent key to
be present, a non-string value defaulting t_content to empty text, and a
parsed stat/status pair requires the status key to be present, a non-string
value defaulting status to Null. -/
theorem c8_present_key_defaults :
    (∀ q v q2, desc q v = (some true, q2) →
      ∃ o tj, dataQuestionObj v = some o ∧ objGet o "translatedContent" = some tj ∧
        q2.t_content = (tj.asStr).getD "") ∧
    (∀ v p pr, problemPair v p = some pr →
      ∃ sj, p.get "status" = some sj ∧ pr.status = (sj.asStr).getD "Null") := by
  constructor
  · intro q v q2 h
    obtain ⟨o, ho, hb⟩ := desc_success_elim q v q2 h
    obtain ⟨_, tj, htj, hts⟩ := descBuild_fields o q2 hb
    exact ⟨o, tj, ho, htj, hts⟩
  · intro v p pr h
    obtain ⟨_, _, hst⟩ := problemPair_fields v p pr h
    exact hst

/-- C8 witness: both amended conjuncts applied at the inputs whose
translatedContent and status are present as JSON null. -/
theorem c8_witness :
    (desc Question.default gqlFull = (some true, qFull) ∧
     ∃ o tj, dataQuestionObj gqlFull = some o ∧ objGet o "translatedContent" = some tj ∧
       qFull.t_content = (tj.asStr).getD "") ∧
    (problemPair bulkBody bulkPair1 = some prob1 ∧
     ∃ sj, bulkPair1.get "status" = some sj ∧ prob1.status = (sj.asStr).getD "Null") :=
  ⟨⟨rfl, c8_present_key_defaults.1 Question.default gqlFull qFull rfl⟩,
   ⟨rfl, c8_present_key_defaults.2 bulkBody bulkPair1 prob1 rfl⟩⟩

/-- C9: the user parser is three-state on the scenario inputs: absence for the
structurally malformed body, present-but-null success (not authenticated)
for the JSON-null user, and the populated pair for a full identity. -/
theorem c9_user_three_state :
    user userBad = none ∧ user userNull = some none ∧
    user userAnn = some (some ("ann", true)) := ⟨rfl, rfl, rfl⟩

/-- C10: whenever desc returns hard failure (none) or soft-null (some false),
the passed-in Question record comes back exactly as it was: the in-place
assignment happens only after every sub-parse of the full-success path. -/
theorem c10_desc_preserves_record (q : Question) (v : Json)
    (h : (desc q v).fst ≠ some true) : (desc q v).snd = q := by
  cases h1 : dataQuestionObj v with
  | none => simp [desc, h1]
  | some o =>
    cases h2 : objGet o "content" with
    | none => simp [desc, h1, h2]
    | some c =>
      cases h3 : c.isNull with
      | true => simp [desc, h1, h2, h3]
      | false =>
        cases h4 : descBuild o with
        | none => simp [desc, h1, h2, h3, h4]
        | some q2 =>
          exfalso
          apply h
          simp [desc, h1, h2, h3, h4]

/-- C10 witness: the preservation theorem applied at the soft-null input and at
a hard-failure input. -/
theorem c10_witness :
    ((desc Question.default nullContentInput).fst ≠ some true ∧
     (desc Question.default nullContentInput).snd = Question.default) ∧
    ((desc qFull (Json.obj [])).fst ≠ some true ∧
     (desc qFull (Json.obj [])).snd = qFull) :=
  ⟨⟨by decide, c10_desc_preserves_record Question.default nullContentInput (by decide)⟩,
   ⟨by decide, c10_desc_preserves_record qFull (Json.obj []) (by decide)⟩⟩
